import Mathlib

/-
  Verification of the tt-spatter TensTorrent backend.

  Shallow embedding of:
  - the core-resident kernels under src/Spatter/kernels/
    (gather_kernel.cpp, scatter_kernel.cpp, multi_gather_kernel.cpp,
     multi_scatter_kernel.cpp, gather_scatter_kernel.cpp), and
  - the host-side buffer manager and kernel-launch entry points in
    src/Spatter/TensTorrentBackend.cc.

  Machine integers (uint32_t, size_t) are modelled as Nat, with explicit
  `% 2 ^ 32` where a narrowing cast occurs in the source.  DRAM buffers are
  modelled as total functions `Nat → Nat` (index to element value) or as
  `List Nat` where the source manipulates host-side vectors.
-/

/-- Elements per tile: 32 * 32 elements, shared constant of every kernel. -/
def elementsPerTile : Nat := 1024

/-- Generic fold of single-element point updates over a list of element
indices: each element `x` writes value `val x` at index `key x`.  This is the
net memory effect of the kernels' read-modify-write element loops. -/
def updFold {α : Type} (key : Nat → Nat) (val : Nat → α) (f0 : Nat → α)
    (L : List Nat) : Nat → α :=
  L.foldl (fun f x => Function.update f (key x) (val x)) f0

theorem updFold_nil {α : Type} (key : Nat → Nat) (val : Nat → α) (f0 : Nat → α) :
    updFold key val f0 [] = f0 := rfl

theorem updFold_cons {α : Type} (key : Nat → Nat) (val : Nat → α) (f0 : Nat → α)
    (x : Nat) (L : List Nat) :
    updFold key val f0 (x :: L) = updFold key val (Function.update f0 (key x) (val x)) L := rfl

/-- Frame lemma: an index written by no element of the list is preserved. -/
theorem updFold_frame {α : Type} (key : Nat → Nat) (val : Nat → α) (f0 : Nat → α)
    (L : List Nat) (i : Nat) (h : ∀ x ∈ L, key x ≠ i) :
    updFold key val f0 L i = f0 i := by
  induction L generalizing f0 with
  | nil => rfl
  | cons a T ih =>
    rw [updFold_cons, ih _ (fun x hx => h x (List.mem_cons_of_mem a hx))]
    exact Function.update_noteq (Ne.symm (h a (List.mem_cons_self a T))) _ _

/-- Last-write lemma: when the written keys are pairwise distinct, the final
value at `key e` is `val e` for any processed element `e`. -/
theorem updFold_last {α : Type} (key : Nat → Nat) (val : Nat → α) (f0 : Nat → α)
    (L : List Nat) (e : Nat) (he : e ∈ L) (hn : (L.map key).Nodup) :
    updFold key val f0 L (key e) = val e := by
  induction L generalizing f0 with
  | nil => cases he
  | cons a T ih =>
    rw [List.map_cons] at hn
    rw [updFold_cons]
    rcases List.mem_cons.mp he with rfl | hT
    · have hkeys : ∀ x ∈ T, key x ≠ key e := by
        intro x hx hEq
        exact (List.nodup_cons.mp hn).1 (hEq ▸ List.mem_map_of_mem key hx)
      rw [updFold_frame _ _ _ _ _ hkeys]
      exact Function.update_same _ _ _
    · exact ih _ hT (List.nodup_cons.mp hn).2

/-
  Embedding of scatter_kernel.cpp (kernel_main).

  The kernel walks the tiles overlapping this core's work range
  [work_offset, work_offset + work_per_core); within each tile it processes
  the intersection of the tile with the work range.  For each element it
  reads the pattern value at the element's global index, computes
  dst_index = pattern[g] + delta * (g / elements_per_tile), then performs a
  read-modify-write of the destination tile: it reads the destination tile
  from DRAM, overwrites the single element at dst_index's offset, and writes
  the whole tile back (with barriers), so the net memory effect is a
  sequence of single-element point updates in element order.
-/

/-- Destination index computed by scatter_kernel.cpp line 89:
`pattern_data[elem_idx] + delta * (global_elem_idx / elements_per_tile)`;
the pattern tile is indexed at the in-tile offset of the global element, so
the pattern lookup is at the global element index. -/
def scatterDstIndex (pattern : Nat → Nat) (delta g : Nat) : Nat :=
  pattern g + delta * (g / elementsPerTile)

/-- Global element indices this core processes inside one tile
(scatter_kernel.cpp lines 60-69): the intersection of the tile with the
core's work range. -/
def coreTileElems (startElement endElement tileIdx : Nat) : List Nat :=
  let tileStartElem := tileIdx * elementsPerTile
  let workStartInTile := if startElement > tileStartElem then startElement - tileStartElem else 0
  let workEndInTile :=
    if endElement < tileStartElem + elementsPerTile then endElement - tileStartElem
    else elementsPerTile
  if workStartInTile ≥ workEndInTile then []
  else (List.range' workStartInTile (workEndInTile - workStartInTile)).map
    (fun e => tileStartElem + e)

/-- The full ordered list of global element indices processed by one core of
the scatter kernel (the two nested loops of scatter_kernel.cpp). -/
def scatterProcessed (workOffset workPerCore : Nat) : List Nat :=
  let startElement := workOffset
  let endElement := workOffset + workPerCore
  let startTile := startElement / elementsPerTile
  let endTile := (endElement + elementsPerTile - 1) / elementsPerTile
  (List.range' startTile (endTile - startTile)).flatMap
    (coreTileElems startElement endElement)

/-- Net effect of scatter_kernel.cpp on the sparse (destination) buffer:
each processed element g performs the point update
`sparse[scatterDstIndex pattern delta g] := dense[g]`. -/
def scatterKernel (pattern dense : Nat → Nat) (delta workOffset workPerCore : Nat)
    (sparse0 : Nat → Nat) : Nat → Nat :=
  (scatterProcessed workOffset workPerCore).foldl
    (fun sparse g => Function.update sparse (scatterDstIndex pattern delta g) (dense g))
    sparse0

theorem scatterKernel_eq_updFold (pattern dense : Nat → Nat)
    (delta workOffset workPerCore : Nat) (sparse0 : Nat → Nat) :
    scatterKernel pattern dense delta workOffset workPerCore sparse0
      = updFold (scatterDstIndex pattern delta) dense sparse0
          (scatterProcessed workOffset workPerCore) := rfl

/-- C3: for every scatter execution, every sparse-buffer position whose index
is not of the form `pattern[g] + delta * (g / elements_per_tile)` for some
processed element g retains its pre-existing value: the kernel's per-element
read-modify-write of the destination tile preserves every untouched position. -/
theorem C3_scatter_frame (pattern dense sparse0 : Nat → Nat)
    (delta workOffset workPerCore idx : Nat)
    (h : ∀ g ∈ scatterProcessed workOffset workPerCore,
      scatterDstIndex pattern delta g ≠ idx) :
    scatterKernel pattern dense delta workOffset workPerCore sparse0 idx = sparse0 idx := by
  rw [scatterKernel_eq_updFold]
  exact updFold_frame _ _ _ _ _ h

/-- Witness for C3 at the spec's concrete scatter instance: pattern
`[0,2,4,6,8,10,12,14]`, delta 0, 8 elements starting at offset 0; the
untouched sparse position 1 keeps its pre-existing value 201. -/
theorem C3_witness :
    (∀ g ∈ scatterProcessed 0 8,
      scatterDstIndex (fun g => [0, 2, 4, 6, 8, 10, 12, 14].getD g 0) 0 g ≠ 1) ∧
    scatterKernel (fun g => [0, 2, 4, 6, 8, 10, 12, 14].getD g 0)
      (fun g => 100 + g) 0 0 8 (fun k => 200 + k) 1 = 201 :=
  ⟨by decide,
   (C3_scatter_frame (fun g => [0, 2, 4, 6, 8, 10, 12, 14].getD g 0)
      (fun g => 100 + g) (fun k => 200 + k) 0 0 8 1 (by decide)).trans (by decide)⟩

/-
  Embedding of gather_kernel.cpp (kernel_main), the single-kernel tile-cached
  gather variant.

  Key source facts: the caller-supplied pattern buffer address (arg6) is
  ignored and a hardcoded pattern array `pattern_uniform_8_1 = {0,...,7}` is
  used for the lookup (lines 47-71).  The kernel processes the output in
  tiles: it clears the output tile buffer to zero (lines 87-91), writes
  sparse[pattern_data[elem_idx % pattern_length] + delta * (elem_idx /
  pattern_length)] at the in-tile offset of each element of the tile that is
  below num_elements (lines 94-117), and writes each completed output tile
  back to DRAM exactly once (lines 119-121).
-/

/-- Hardcoded pattern array selected by gather_kernel.cpp line 71. -/
def hardcodedPattern : List Nat := [0, 1, 2, 3, 4, 5, 6, 7]

/-- Source index computed by gather_kernel.cpp lines 96-100, using the
hardcoded pattern, not the caller's pattern buffer. -/
def gatherSrcIndex (delta patternLength elemIdx : Nat) : Nat :=
  hardcodedPattern.getD (elemIdx % patternLength) 0 + delta * (elemIdx / patternLength)

/-- Number of output tiles (gather_kernel.cpp line 74). -/
def numOutputTiles (numElements : Nat) : Nat :=
  (numElements + elementsPerTile - 1) / elementsPerTile

/-- Contents of one output tile buffer after the clear-and-fill loop of
gather_kernel.cpp lines 87-117, as a function from in-tile offset to value. -/
def gatherOutputTile (numElements delta patternLength : Nat) (sparse : Nat → Nat)
    (outTileIdx : Nat) : Nat → Nat :=
  let tileStart := outTileIdx * elementsPerTile
  let tileEnd := min (tileStart + elementsPerTile) numElements
  updFold (fun e => e - tileStart)
    (fun e => sparse (gatherSrcIndex delta patternLength e))
    (fun _ => 0)
    (List.range' tileStart (tileEnd - tileStart))

/-- Dense (destination) DRAM after gather_kernel.cpp: the outer loop writes
each output tile index below numOutputTiles exactly once, with the contents
built by gatherOutputTile.  The caller-supplied pattern buffer is a parameter
of the entry point but is ignored by the kernel (source comment at line 33). -/
def gatherKernelDense (callerPattern : List Nat) (numElements delta patternLength : Nat)
    (sparse : Nat → Nat) (dense0 : Nat → Nat) : Nat → Nat :=
  (List.range (numOutputTiles numElements)).foldl
    (fun dense t => fun g =>
      if g / elementsPerTile = t then
        gatherOutputTile numElements delta patternLength sparse t (g % elementsPerTile)
      else dense g)
    dense0

/-- Folding whole-tile writes over tile indices 0..n-1: position g ends up
holding the tile buffer contents of its own tile when that tile was written,
and the initial contents otherwise. -/
theorem foldl_tileWrite (n : Nat) (f : Nat → Nat → Nat) (d0 : Nat → Nat) (g : Nat) :
    ((List.range n).foldl
      (fun dense t => fun x =>
        if x / elementsPerTile = t then f t (x % elementsPerTile) else dense x) d0) g
    = if g / elementsPerTile < n then f (g / elementsPerTile) (g % elementsPerTile)
      else d0 g := by
  induction n generalizing d0 with
  | zero => simp
  | succ m ih =>
    rw [List.range_succ, List.foldl_append, List.foldl_cons, List.foldl_nil, ih]
    by_cases hg : g / elementsPerTile = m
    · simp [hg]
    · have : (g / elementsPerTile < m) ↔ (g / elementsPerTile < m + 1) := by omega
      simp [hg, this]

/-- C1 counterexample: the gather kernel does not use the caller-supplied
pattern buffer.  With caller pattern `[1,0,2,3,4,5,6,7]`, L = 8, delta = 0 and
sparse k = 10 + k, the claim predicts dense[0] = sparse[pattern[0]] = 11, but
the kernel (which uses the hardcoded pattern `[0..7]`) produces 10. -/
theorem C1_counterexample :
    ¬ (gatherKernelDense [1, 0, 2, 3, 4, 5, 6, 7] 8 0 8 (fun k => 10 + k) (fun _ => 0) 0
        = (fun k => 10 + k) ([1, 0, 2, 3, 4, 5, 6, 7].getD (0 % 8) 0 + 0 * (0 / 8))) := by
  decide

/-- C1 amended: with pattern length 8, the gather kernel stores into dense
position j the sparse element at index
`hardcodedPattern[j % 8] + delta * (j / 8)`, for every j in the processed
range, ignoring the caller-supplied pattern buffer; the spec's concrete
instance holds because there the caller's pattern coincides with the
hardcoded one. -/
theorem C1_gather_hardcoded (callerPattern : List Nat) (numElements delta : Nat)
    (sparse dense0 : Nat → Nat) (j : Nat) (hj : j < numElements) :
    gatherKernelDense callerPattern numElements delta 8 sparse dense0 j
      = sparse (hardcodedPattern.getD (j % 8) 0 + delta * (j / 8)) := by
  have h1 : j / elementsPerTile < numOutputTiles numElements := by
    simp only [elementsPerTile, numOutputTiles]
    omega
  have hkey : j % elementsPerTile = j - j / elementsPerTile * elementsPerTile := by
    simp only [elementsPerTile]
    omega
  have hmain : updFold (fun e => e - j / elementsPerTile * elementsPerTile)
      (fun e => sparse (gatherSrcIndex delta 8 e)) (fun _ => 0)
      (List.range' (j / elementsPerTile * elementsPerTile)
        (min (j / elementsPerTile * elementsPerTile + elementsPerTile) numElements
          - j / elementsPerTile * elementsPerTile))
      (j % elementsPerTile) = sparse (gatherSrcIndex delta 8 j) := by
    rw [hkey]
    have he : j ∈ List.range' (j / elementsPerTile * elementsPerTile)
        (min (j / elementsPerTile * elementsPerTile + elementsPerTile) numElements
          - j / elementsPerTile * elementsPerTile) := by
      rw [List.mem_range'_1]
      simp only [elementsPerTile] at *
      omega
    have hn : ((List.range' (j / elementsPerTile * elementsPerTile)
        (min (j / elementsPerTile * elementsPerTile + elementsPerTile) numElements
          - j / elementsPerTile * elementsPerTile)).map
        (fun e => e - j / elementsPerTile * elementsPerTile)).Nodup := by
      refine List.Nodup.map_on ?_ (List.nodup_range' _ _)
      intro x hx y hy hxy
      have hx' := (List.mem_range'_1.mp hx).1
      have hy' := (List.mem_range'_1.mp hy).1
      omega
    exact updFold_last _ _ _ _ j he hn
  unfold gatherKernelDense
  rw [foldl_tileWrite, if_pos h1]
  exact hmain

/-- Witness for C1's amended theorem at the spec's concrete gather instance:
pattern `[0..7]`, delta 0, sparse k = 10 + k, 8 elements; dense[5] = 15. -/
theorem C1_witness :
    (5 : Nat) < 8 ∧
    gatherKernelDense [0, 1, 2, 3, 4, 5, 6, 7] 8 0 8 (fun k => 10 + k) (fun _ => 0) 5 = 15 :=
  ⟨by decide,
   (C1_gather_hardcoded [0, 1, 2, 3, 4, 5, 6, 7] 8 0 (fun k => 10 + k) (fun _ => 0) 5
      (by decide)).trans (by decide)⟩

/-
  Work partitioner (spec section 4.3).  The caller
  TensTorrentDevice::executeGatherKernel (TensTorrentBackend.cc lines
  310-372) invokes split_work_to_cores, a tt_metal library utility whose
  implementation is not part of this repository, and then accumulates a
  running offset over group 1 then group 2 to assign each core its range.
-/

/-- Modelled from the spec: per-core element counts of split_work_to_cores,
whose implementation is missing from this repository (only its caller is in
src/).  Spec 4.3: with C cores, base = N / C and remainder = N % C, the first
remainder cores receive base+1 elements each and the remaining cores receive
base elements each, in a fixed deterministic core order. -/
def splitCounts (C N : Nat) : List Nat :=
  (List.range C).map fun k => if k < N % C then N / C + 1 else N / C

/-- Ranges built from per-core counts by accumulating a running offset, as
the work_offset loop of executeGatherKernel does: each core receives the pair
(start_element, count). -/
def rangesFromCounts (off : Nat) : List Nat → List (Nat × Nat)
  | [] => []
  | c :: cs => (off, c) :: rangesFromCounts (off + c) cs

/-- The per-core work ranges of the partitioner, group 1 then group 2, with a
running offset starting at 0. -/
def splitRanges (C N : Nat) : List (Nat × Nat) :=
  rangesFromCounts 0 (splitCounts C N)

/-- Whether a work range (start, count) contains index x. -/
def rangeContains (r : Nat × Nat) (x : Nat) : Bool :=
  decide (r.1 ≤ x ∧ x < r.1 + r.2)

theorem sum_splitIf (C q r : Nat) :
    ((List.range C).map fun k => if k < r then q + 1 else q).sum = C * q + min r C := by
  induction C with
  | zero => simp
  | succ m ih =>
    rw [List.range_succ, List.map_append, List.sum_append, ih]
    by_cases hm : m < r
    · simp only [List.map_cons, List.map_nil, if_pos hm, List.sum_cons, List.sum_nil]
      have : min r m = m := by omega
      have h2 : min r (m + 1) = m + 1 := by omega
      rw [this, h2]
      ring_nf
    · simp only [List.map_cons, List.map_nil, if_neg hm, List.sum_cons, List.sum_nil]
      have : min r m = min r (m + 1) := by omega
      rw [← this]
      ring_nf

theorem rangesFromCounts_chain (off : Nat) (cs : List Nat) :
    List.Chain' (fun r1 r2 => r2.1 = r1.1 + r1.2) (rangesFromCounts off cs) := by
  induction cs generalizing off with
  | nil => exact List.chain'_nil
  | cons c cs ih =>
    cases cs with
    | nil => simp [rangesFromCounts]
    | cons d ds =>
      refine List.Chain'.cons rfl ?_
      exact ih (off + c)

theorem rangesFromCounts_countP (off : Nat) (cs : List Nat) (x : Nat) :
    (rangesFromCounts off cs).countP (fun r => rangeContains r x)
      = if off ≤ x ∧ x < off + cs.sum then 1 else 0 := by
  induction cs generalizing off with
  | nil =>
    simp only [rangesFromCounts, List.countP_nil, List.sum_nil]
    rw [if_neg (by omega)]
  | cons c cs ih =>
    rw [rangesFromCounts, List.countP_cons, ih (off + c)]
    simp only [rangeContains, List.sum_cons]
    by_cases h1 : off ≤ x ∧ x < off + c
    · have h2 : ¬ (off + c ≤ x ∧ x < off + c + cs.sum) := by omega
      have h3 : off ≤ x ∧ x < off + (c + cs.sum) := by omega
      simp [h1, h2, h3]
    · by_cases h2 : off + c ≤ x ∧ x < off + c + cs.sum
      · have h3 : off ≤ x ∧ x < off + (c + cs.sum) := by omega
        simp [h1, h2, h3]
      · have h3 : ¬ (off ≤ x ∧ x < off + (c + cs.sum)) := by omega
        simp [h1, h2, h3]

/-- C2: for every core count C > 0 of the effective grid and element count N,
the partition (first N % C cores receive N / C + 1 elements, the rest N / C,
ranges accumulated by a running offset in group order) yields one count per
core, counts summing to N, contiguous ordered ranges (each range starts
exactly where the previous ends), and every index x is covered by exactly one
range when x < N and by none otherwise (pairwise disjointness and exact
coverage of the interval from 0 to N). -/
theorem C2_partition (C N x : Nat) (hC : 0 < C) :
    (splitCounts C N).length = C ∧
    (splitCounts C N).sum = N ∧
    List.Chain' (fun r1 r2 => r2.1 = r1.1 + r1.2) (splitRanges C N) ∧
    (splitRanges C N).countP (fun r => rangeContains r x) = if x < N then 1 else 0 := by
  have hmod : N % C < C := Nat.mod_lt _ hC
  have hdm := Nat.div_add_mod N C
  have hsum : (splitCounts C N).sum = N := by
    rw [splitCounts, sum_splitIf]
    omega
  refine ⟨by simp [splitCounts], hsum, rangesFromCounts_chain 0 _, ?_⟩
  rw [splitRanges, rangesFromCounts_countP, hsum]
  by_cases hx : x < N
  · rw [if_pos (by omega), if_pos hx]
  · rw [if_neg (by omega), if_neg hx]

/-- Witness for C2 with 4 cores, 10 elements, probe index 7. -/
theorem C2_witness :
    0 < 4 ∧
    ((splitCounts 4 10).length = 4 ∧
     (splitCounts 4 10).sum = 10 ∧
     List.Chain' (fun r1 r2 => r2.1 = r1.1 + r1.2) (splitRanges 4 10) ∧
     (splitRanges 4 10).countP (fun r => rangeContains r 7) = if 7 < 10 then 1 else 0) :=
  ⟨by decide, C2_partition 4 10 7 (by decide)⟩

/-
  Embedding of multi_gather_kernel.cpp (kernel_main).

  Per element elem_idx: j = elem_idx % count, i = elem_idx / count,
  pattern_idx = j % pattern_length; first_indirection_idx =
  pattern_gather[pattern_idx] (tile-cached lookup at global index
  pattern_idx, no bounds reduction); sparse_base_idx =
  pattern[first_indirection_idx]; sparse_idx = (sparse_base_idx + delta * i)
  % sparse_size_elements; dense_idx = j + pattern_length * (i % wrap); the
  dense tile is kept cached and read-modify-written, so the net effect is a
  sequence of point updates dense[dense_idx] := sparse[sparse_idx] in
  element order.
-/

/-- First indirection of multi_gather_kernel.cpp lines 98-101: the raw
pattern_gather value at index (elem_idx % count) % pattern_length, with no
reduction applied before it indexes the pattern buffer. -/
def mgFirstIndirectionIdx (patternGather : Nat → Nat) (count patternLength e : Nat) : Nat :=
  patternGather (e % count % patternLength)

/-- Second indirection of multi_gather_kernel.cpp lines 106-117. -/
def mgSparseBaseIdx (pattern patternGather : Nat → Nat) (count patternLength e : Nat) : Nat :=
  pattern (mgFirstIndirectionIdx patternGather count patternLength e)

/-- Final sparse index of multi_gather_kernel.cpp line 120, wrapped modulo
the sparse buffer size. -/
def mgSparseIdx (pattern patternGather : Nat → Nat)
    (count patternLength delta sparseSize e : Nat) : Nat :=
  (mgSparseBaseIdx pattern patternGather count patternLength e + delta * (e / count))
    % sparseSize

/-- Dense destination index of multi_gather_kernel.cpp line 135. -/
def mgDenseIdx (count patternLength wrap e : Nat) : Nat :=
  e % count + patternLength * (e / count % wrap)

/-- Element indices processed by one core of the multi-gather kernel,
honouring the early exit of lines 54-56. -/
def multiGatherProcessed (startElement endElement : Nat) : List Nat :=
  if startElement ≥ endElement then []
  else List.range' startElement (endElement - startElement)

/-- Net effect of multi_gather_kernel.cpp on the dense buffer. -/
def multiGatherKernel (pattern patternGather sparse : Nat → Nat)
    (count patternLength delta wrap sparseSize startElement endElement : Nat)
    (dense0 : Nat → Nat) : Nat → Nat :=
  (multiGatherProcessed startElement endElement).foldl
    (fun dense e => Function.update dense (mgDenseIdx count patternLength wrap e)
      (sparse (mgSparseIdx pattern patternGather count patternLength delta sparseSize e)))
    dense0

theorem multiGatherKernel_eq_updFold (pattern patternGather sparse : Nat → Nat)
    (count patternLength delta wrap sparseSize s t : Nat) (dense0 : Nat → Nat) :
    multiGatherKernel pattern patternGather sparse count patternLength delta wrap
        sparseSize s t dense0
      = updFold (mgDenseIdx count patternLength wrap)
          (fun e => sparse (mgSparseIdx pattern patternGather count patternLength
            delta sparseSize e))
          dense0 (multiGatherProcessed s t) := rfl

/-- C4: for every processed element e of the multi-gather kernel, with
j = e % count and i = e / count, provided the dense destination indices of
the processed range are pairwise distinct, the final dense buffer holds at
index j + pattern_length * (i % wrap) the sparse element at index
(pattern[pattern_gather[j % pattern_length]] + delta * i) % sparse_size:
the two sequential pattern lookups, the modular sparse wrap and the wrapped
dense index are exactly as claimed. -/
theorem C4_multi_gather (pattern patternGather sparse dense0 : Nat → Nat)
    (count patternLength delta wrap sparseSize s t e : Nat)
    (he : e ∈ multiGatherProcessed s t)
    (hn : ((multiGatherProcessed s t).map (mgDenseIdx count patternLength wrap)).Nodup) :
    multiGatherKernel pattern patternGather sparse count patternLength delta wrap
        sparseSize s t dense0
        (e % count + patternLength * (e / count % wrap))
      = sparse ((pattern (patternGather (e % count % patternLength))
          + delta * (e / count)) % sparseSize) := by
  rw [multiGatherKernel_eq_updFold]
  exact updFold_last _ _ _ _ e he hn

/-- Witness for C4 at the spec's concrete multi-gather instance:
pattern = [5,6,7], pattern_gather = [2,0,1], count = 3, pattern_length = 3,
delta = 0, wrap = 1, sparse_size = 8, elements 0..2; element 1 resolves
through pattern[pattern_gather[1]] = pattern[0] = 5 and dense[1] receives
sparse[5] = 105. -/
theorem C4_witness :
    1 ∈ multiGatherProcessed 0 3 ∧
    ((multiGatherProcessed 0 3).map (mgDenseIdx 3 3 1)).Nodup ∧
    multiGatherKernel (fun k => [5, 6, 7].getD k 0) (fun k => [2, 0, 1].getD k 0)
      (fun k => 100 + k) 3 3 0 1 8 0 3 (fun _ => 0) 1 = 105 :=
  ⟨by decide, by decide,
   (C4_multi_gather (fun k => [5, 6, 7].getD k 0) (fun k => [2, 0, 1].getD k 0)
      (fun k => 100 + k) (fun _ => 0) 3 3 0 1 8 0 3 1 (by decide) (by decide)).trans
     (by decide)⟩

/-- First indirection of multi_scatter_kernel.cpp lines 113-119: the raw
pattern_scatter value is reduced modulo pattern_length (source comment
"Bounds check for first indirection") before it indexes the pattern
buffer. -/
def msFirstIndirectionIdx (patternScatter : Nat → Nat) (count patternLength e : Nat) : Nat :=
  patternScatter (e % count % patternLength) % patternLength

/-- C10: in the multi-scatter kernel the first-indirection index is reduced
modulo pattern_length before indexing the pattern buffer, so it is always
below pattern_length, for arbitrary pattern_scatter contents; the multi-gather
kernel performs no such reduction, so its first-indirection index is the raw
pattern_gather value and can reach or exceed pattern_length. -/
theorem C10_first_indirection_bound (patternScatter patternGather : Nat → Nat)
    (count patternLength e : Nat) (hL : 0 < patternLength)
    (hpg : patternLength ≤ patternGather (e % count % patternLength)) :
    msFirstIndirectionIdx patternScatter count patternLength e < patternLength ∧
    patternLength ≤ mgFirstIndirectionIdx patternGather count patternLength e :=
  ⟨Nat.mod_lt _ hL, hpg⟩

/-- Witness for C10: pattern_length 3, count 3, element 0, pattern_scatter
constantly 7 (reduced to 1 < 3), pattern_gather constantly 5 (not reduced,
5 exceeds 3). -/
theorem C10_witness :
    0 < 3 ∧ (3 : Nat) ≤ (fun _ : Nat => 5) (0 % 3 % 3) ∧
    msFirstIndirectionIdx (fun _ => 7) 3 3 0 < 3 ∧
    3 ≤ mgFirstIndirectionIdx (fun _ => 5) 3 3 0 :=
  ⟨by decide, by decide,
   C10_first_indirection_bound (fun _ => 7) (fun _ => 5) 3 3 0 (by decide) (by decide)⟩

/-
  Embedding of the host-side buffer manager
  (TensTorrentBackend.cc lines 138-256).

  write_buffer records data.size() in the buffer_sizes_ side table
  (overwriting any prior record), converts and zero-pads the values to a
  whole number of 1024-element tiles, and enqueues the transfer.
  read_buffer reads back the tile-padded device data, looks the handle up in
  buffer_sizes_ and keeps min(recorded, returned) elements when a record
  exists, otherwise keeps the full returned length.
-/

/-- Zero-padding to the tile boundary performed by write_buffer
(TensTorrentBackend.cc lines 149-164): values are padded with zeros to the
next multiple of 1024 elements. -/
def padToTile (data : List Nat) : List Nat :=
  let alignedSize := (data.length + (elementsPerTile - 1)) / elementsPerTile * elementsPerTile
  data ++ List.replicate (alignedSize - data.length) 0

/-- Truncation performed by read_buffer (TensTorrentBackend.cc lines
174-193): with a recorded logical count the result keeps
min(recorded, returned-length) elements, without one it keeps the full
returned sequence. -/
def read_buffer (recorded : Option Nat) (ttData : List Nat) : List Nat :=
  let originalSize :=
    match recorded with
    | some n => n
    | none => ttData.length
  ttData.take (min originalSize ttData.length)

theorem padToTile_length (data : List Nat) :
    (padToTile data).length
      = (data.length + (elementsPerTile - 1)) / elementsPerTile * elementsPerTile := by
  simp only [padToTile, List.length_append, List.length_replicate, elementsPerTile]
  omega

/-- C6: reading a handle whose most recent write recorded a logical count
returns exactly the originally written values (the tile-padded sequence is
truncated to the recorded count), and reading a handle with no recorded
count returns the full tile-padded sequence unmodified. -/
theorem C6_read_truncation (data ttData : List Nat) :
    read_buffer (some data.length) (padToTile data) = data ∧
    read_buffer none ttData = ttData := by
  constructor
  · have hlen : data.length ≤ (padToTile data).length := by
      rw [padToTile_length]
      simp only [elementsPerTile]
      omega
    have h1 : read_buffer (some data.length) (padToTile data)
        = (padToTile data).take data.length := by
      simp only [read_buffer, Nat.min_eq_left hlen]
    rw [h1]
    unfold padToTile
    exact List.take_left data _
  · simp [read_buffer]

/-- Embedding of the size_t write overload
(TensTorrentBackend.cc lines 233-242): every value is narrowed by
static_cast to uint32_t, i.e. reduced modulo 2 ^ 32, before the uint32
transfer path is invoked. -/
def writeBuffer_sizeT (data : List Nat) : List Nat :=
  data.map (fun v => v % 2 ^ 32)

/-- C9: the size_t write overload narrows each value to 32 bits: the device
receives value mod 2 ^ 32 at every position, lengths are preserved, values
below 2 ^ 32 are passed through unchanged, and any value of 2 ^ 32 or more
is silently changed by the narrowing. -/
theorem C9_sizeT_narrowing (data : List Nat) (i : Nat) (hi : i < data.length) :
    (writeBuffer_sizeT data).length = data.length ∧
    (writeBuffer_sizeT data).getD i 0 = data.getD i 0 % 2 ^ 32 ∧
    (data.getD i 0 < 2 ^ 32 → (writeBuffer_sizeT data).getD i 0 = data.getD i 0) ∧
    (2 ^ 32 ≤ data.getD i 0 → (writeBuffer_sizeT data).getD i 0 ≠ data.getD i 0) := by
  have hmap : (writeBuffer_sizeT data).getD i 0 = data.getD i 0 % 2 ^ 32 := by
    have hi2 : i < (writeBuffer_sizeT data).length := by
      simpa [writeBuffer_sizeT] using hi
    rw [List.getD_eq_getElem _ _ hi2, List.getD_eq_getElem _ _ hi]
    simp [writeBuffer_sizeT]
  refine ⟨by simp [writeBuffer_sizeT], hmap, ?_, ?_⟩
  · intro hlt
    rw [hmap, Nat.mod_eq_of_lt hlt]
  · intro hge
    rw [hmap]
    have : data.getD i 0 % 2 ^ 32 < 2 ^ 32 := Nat.mod_lt _ (by norm_num)
    omega

/-- Witness for C9 on the single value 2 ^ 32 + 5, which the device receives
as 5. -/
theorem C9_witness :
    0 < ([2 ^ 32 + 5] : List Nat).length ∧
    ((writeBuffer_sizeT [2 ^ 32 + 5]).length = 1 ∧
     (writeBuffer_sizeT [2 ^ 32 + 5]).getD 0 0 = (2 ^ 32 + 5) % 2 ^ 32) :=
  ⟨by decide,
   ⟨(C9_sizeT_narrowing [2 ^ 32 + 5] 0 (by decide)).1,
    (C9_sizeT_narrowing [2 ^ 32 + 5] 0 (by decide)).2.1⟩⟩

/-
  Kernel-launch entry-point guards (TensTorrentBackend.cc).

  executeGatherKernel (lines 290-302) early-returns false on
  `!initialized_` only; the buffer handles are not checked before the
  device calls in the try block.  executeScatterKernel (lines 389-401)
  early-returns false on
  `!initialized_ || !src_buffer || !dst_buffer || !pattern_buffer`.
  Handles are modelled as Option values, none standing for a null
  shared_ptr.
-/

/-- Early-failure guard of executeGatherKernel: true exactly when the call
returns false before any device call.  The source checks only
initialization. -/
def gatherEarlyReturnFalse (initialized : Bool)
    (srcBuffer dstBuffer patternBuffer : Option Nat) : Bool :=
  !initialized

/-- Early-failure guard of executeScatterKernel: the source checks
initialization and all three handles. -/
def scatterEarlyReturnFalse (initialized : Bool)
    (srcBuffer dstBuffer patternBuffer : Option Nat) : Bool :=
  !initialized || srcBuffer.isNone || dstBuffer.isNone || patternBuffer.isNone

/-- C8 counterexample: on an initialized device, a null source buffer does
not make the gather entry point return failure before device calls are
attempted; its guard passes and the handle is dereferenced inside the launch
path. -/
theorem C8_counterexample :
    gatherEarlyReturnFalse true none (some 0) (some 0) = false := by
  decide

/-- C8 amended: the scatter entry point short-circuits to failure exactly
when the device is uninitialized or any of the three buffer handles is null,
while the gather entry point short-circuits exactly when the device is
uninitialized, performing no null-handle check. -/
theorem C8_null_handle_guards (initialized : Bool)
    (srcBuffer dstBuffer patternBuffer : Option Nat) :
    (scatterEarlyReturnFalse initialized srcBuffer dstBuffer patternBuffer = true
      ↔ (initialized = false ∨ srcBuffer = none ∨ dstBuffer = none ∨ patternBuffer = none)) ∧
    (gatherEarlyReturnFalse initialized srcBuffer dstBuffer patternBuffer = true
      ↔ initialized = false) := by
  cases initialized <;>
    rcases srcBuffer with _ | a <;>
    rcases dstBuffer with _ | b <;>
    rcases patternBuffer with _ | c <;>
      simp [scatterEarlyReturnFalse, gatherEarlyReturnFalse]

/-
  Destination-buffer DRAM write traces.

  scatter_kernel.cpp issues noc_async_write of the destination tile inside
  the element loop (lines 105-107): one destination write per processed
  element.  gather_scatter_kernel.cpp instead keeps the destination tile
  cached, writing the previous tile back only when the destination tile id
  changes (lines 117-128) and flushing the last cached tile after the loop
  (lines 135-139).
-/

/-- Destination tile ids written by scatter_kernel.cpp, in order: the kernel
writes the destination tile back once per processed element (line 106). -/
def scatterDstWrites (pattern : Nat → Nat) (delta workOffset workPerCore : Nat) : List Nat :=
  (scatterProcessed workOffset workPerCore).map
    (fun g => scatterDstIndex pattern delta g / elementsPerTile)

/-- Destination index of gather_scatter_kernel.cpp line 95:
pattern_scatter[elem_idx % pattern_length] + delta_scatter * (elem_idx /
pattern_length). -/
def gsDstIndex (patternScatter : Nat → Nat) (deltaScatter patternLength e : Nat) : Nat :=
  patternScatter (e % patternLength) + deltaScatter * (e / patternLength)

/-- Sequence of destination tile ids referenced by the element loop of
gather_scatter_kernel.cpp for elements start..start+n-1. -/
def gsDstTileSeq (patternScatter : Nat → Nat)
    (deltaScatter patternLength start n : Nat) : List Nat :=
  (List.range' start n).map
    (fun e => gsDstIndex patternScatter deltaScatter patternLength e / elementsPerTile)

/-- Number of destination-tile DRAM writes issued by
gather_scatter_kernel.cpp given the cached-tile state (none models the
UINT32_MAX sentinel) and the remaining destination tile-id sequence: a write
of the previous tile on every tile-id change (lines 117-122) and a final
flush of the cached tile when the loop ends (lines 135-139). -/
def gsWriteCount : Option Nat → List Nat → Nat
  | none, [] => 0
  | some _, [] => 1
  | none, t :: ts => gsWriteCount (some t) ts
  | some c, t :: ts =>
      if t = c then gsWriteCount (some c) ts else 1 + gsWriteCount (some t) ts

/-- Number of maximal runs of equal adjacent values in a list: the write
count a flush-on-tile-id-change discipline produces. -/
def runCountAux (a : Nat) : List Nat → Nat
  | [] => 1
  | b :: l => if b = a then runCountAux a l else 1 + runCountAux b l

/-- Run count of a full list. -/
def runCount : List Nat → Nat
  | [] => 0
  | a :: l => runCountAux a l

theorem gsWriteCount_some (c : Nat) (L : List Nat) :
    gsWriteCount (some c) L = runCountAux c L := by
  induction L generalizing c with
  | nil => rfl
  | cons t ts ih =>
    simp only [gsWriteCount, runCountAux]
    by_cases h : t = c
    · subst h
      simp [ih]
    · simp [h, ih]

theorem gsWriteCount_none (L : List Nat) : gsWriteCount none L = runCount L := by
  cases L with
  | nil => rfl
  | cons t ts => exact gsWriteCount_some t ts

/-- C7 counterexample: with pattern [0,1] and delta 0, a scatter over the two
elements 0 and 1 touches a single destination tile (tile 0) but issues two
destination-tile DRAM writes, so the scatter kernel's write count exceeds the
number of distinct destination tiles touched. -/
theorem C7_counterexample :
    ¬ ((scatterDstWrites (fun g => [0, 1].getD g 0) 0 0 2).length
        ≤ (scatterDstWrites (fun g => [0, 1].getD g 0) 0 0 2).dedup.length) := by
  decide

/-- C7 amended: the scatter kernel issues exactly one destination-tile DRAM
write per processed element (never coalescing), while the gather-scatter
kernel flushes the cached destination tile only when the destination tile id
changes or the range ends, so its destination write count equals the number
of maximal runs of equal adjacent destination tile ids in its access
sequence (which can still exceed the number of distinct tiles when a tile is
revisited non-contiguously). -/
theorem C7_write_coalescing (pattern patternScatter : Nat → Nat)
    (delta workOffset workPerCore deltaScatter patternLength start n : Nat) :
    (scatterDstWrites pattern delta workOffset workPerCore).length
      = (scatterProcessed workOffset workPerCore).length ∧
    gsWriteCount none (gsDstTileSeq patternScatter deltaScatter patternLength start n)
      = runCount (gsDstTileSeq patternScatter deltaScatter patternLength start n) :=
  ⟨by simp [scatterDstWrites], gsWriteCount_none _⟩
